import Mathlib

/-!
Shallow embedding of the TEshortlinksbot repository (src/bot.py).

The bot keeps three SQLite tables: links (token, label, created_at),
users (id, telegram_id, username, first_seen) and solves
(id, user_id, token, solved_at).  We model the database as lists of rows
together with the AUTOINCREMENT counters for users.id and solves.id.
Timestamps (ISO strings produced by datetime.utcnow().isoformat(), which
compare textually in chronological order) are modelled as naturals.

The handlers of bot.py are modelled as pure state transformers:
- start: the redemption engine (records a solve for a start payload);
- generate: inserts 10 fresh tokens labelled Link-1 .. Link-10;
- restart: clears solves and links, then re-invokes generate;
- stats, user_info, latest: read-only reporting;
- owner_only: the decorator gating every command except start.
-/

/-- A row of the links table: token TEXT UNIQUE, label TEXT, created_at TEXT. -/
structure LinkRow where
  token : String
  label : String
  created_at : Nat
deriving Repr, DecidableEq

/-- A row of the users table: id AUTOINCREMENT, telegram_id INTEGER UNIQUE,
username TEXT, first_seen TEXT. -/
structure UserRow where
  id : Nat
  telegram_id : Int
  username : String
  first_seen : Nat
deriving Repr, DecidableEq

/-- A row of the solves table: id AUTOINCREMENT, user_id INTEGER, token TEXT,
solved_at TEXT. -/
structure SolveRow where
  id : Nat
  user_id : Nat
  token : String
  solved_at : Nat
deriving Repr, DecidableEq

/-- The whole persistent store (bot.db): the three tables plus the
AUTOINCREMENT counters feeding users.id and solves.id. -/
structure DB where
  links : List LinkRow
  users : List UserRow
  solves : List SolveRow
  nextUserId : Nat
  nextSolveId : Nat
deriving Repr, DecidableEq

/-- The store produced by init_db on a fresh bot.db: three empty tables;
SQLite AUTOINCREMENT hands out ids starting from 1. -/
def emptyDB : DB := { links := [], users := [], solves := [], nextUserId := 1, nextSolveId := 1 }

/-- SELECT ... FROM users WHERE telegram_id=? (telegram_id is UNIQUE, so the
first match is the only one). -/
def findUserByTid (db : DB) (tid : Int) : Option UserRow :=
  db.users.find? (fun u => u.telegram_id == tid)

/-- SELECT ... FROM links WHERE token=? (token is UNIQUE). -/
def findLinkByToken (db : DB) (tok : String) : Option LinkRow :=
  db.links.find? (fun l => l.token == tok)

/-- SELECT id FROM solves WHERE user_id=? AND token=? . -/
def findSolve (db : DB) (uid : Nat) (tok : String) : Option SolveRow :=
  db.solves.find? (fun s => s.user_id == uid && s.token == tok)

/-- SELECT COUNT(*) FROM solves WHERE user_id=? . -/
def userTotal (db : DB) (uid : Nat) : Nat :=
  (db.solves.filter (fun s => s.user_id == uid)).length

/-- The user-existence block at the top of the start handler: look the sender
up by telegram_id and, when absent, INSERT a users row whose username is
user.username or the empty string and whose first_seen is now.  Returns the
updated store together with the users.id of the sender. -/
def ensureUser (db : DB) (tid : Int) (uname : Option String) (now : Nat) : DB × Nat :=
  match findUserByTid db tid with
  | some u => (db, u.id)
  | none =>
      let uid := db.nextUserId
      ({ db with
          users := db.users ++ [{ id := uid, telegram_id := tid, username := uname.getD "", first_seen := now }],
          nextUserId := uid + 1 }, uid)

/-- The classified result of one invocation of the start handler.  Each
constructor corresponds to one reply string of bot.py. -/
inductive StartOutcome where
  /-- reply: You have already solved this link. -/
  | alreadyRedeemed
  /-- reply: First link solved, thank you. -/
  | firstRedemption
  /-- reply: Link solved, you have solved n links so far. -/
  | subsequentRedemption (n : Nat)
  /-- reply: Invalid or expired link token. -/
  | invalidToken
  /-- reply: Welcome (no start payload given). -/
  | welcome
deriving Repr, DecidableEq

/-- INSERT INTO solves (user_id, token, solved_at) VALUES (?, ?, ?). -/
def solveInsert (db : DB) (uid : Nat) (tok : String) (now : Nat) : DB :=
  { db with
      solves := db.solves ++ [{ id := db.nextSolveId, user_id := uid, token := tok, solved_at := now }],
      nextSolveId := db.nextSolveId + 1 }

/-- The start handler of bot.py: ensure the sender has a users row, then, when
a start payload is present, validate the token, reject a duplicate
(user, token) solve, otherwise insert the solve and classify the outcome by
the sender's post-insert solve count. -/
def start (db : DB) (tid : Int) (uname : Option String) (args : List String) (now : Nat) :
    DB × StartOutcome :=
  let p := ensureUser db tid uname now
  let db1 := p.1
  let uid := p.2
  match args with
  | [] => (db1, .welcome)
  | tok :: _ =>
      match findLinkByToken db1 tok with
      | none => (db1, .invalidToken)
      | some _ =>
          match findSolve db1 uid tok with
          | some _ => (db1, .alreadyRedeemed)
          | none =>
              let db2 := solveInsert db1 uid tok now
              let total := userTotal db2 uid
              if total = 1 then (db2, .firstRedemption)
              else (db2, .subsequentRedemption total)

/-- One INSERT INTO links: the UNIQUE constraint on token makes a duplicate
insert raise sqlite3.IntegrityError, which no handler catches; none models
that abort. -/
def insertLink (db : DB) (tok lbl : String) (now : Nat) : Option DB :=
  if db.links.any (fun l => l.token == tok) then none
  else some { db with links := db.links ++ [{ token := tok, label := lbl, created_at := now }] }

/-- The insert loop of the generate handler over the remaining indices.  Every
db_execute commits on its own connection, so inserts made before a failing one
stay committed: the Bool records whether the loop ran to completion. -/
def insertLinks (db : DB) (g : Nat → String) (now : Nat) : List Nat → DB × Bool
  | [] => (db, true)
  | i :: rest =>
      match insertLink db (g i) ("Link-" ++ toString (i + 1)) now with
      | none => (db, false)
      | some db1 => insertLinks db1 g now rest

/-- The generate handler: ten INSERTs of fresh uuid4().hex tokens labelled
Link-1 .. Link-10.  The token source is abstracted as g : Nat -> String giving
the token drawn at loop index i. -/
def generate (db : DB) (g : Nat → String) (now : Nat) : DB × Bool :=
  insertLinks db g now (List.range 10)

/-- The body of the restart handler: DELETE FROM solves, DELETE FROM links,
then call generate. -/
def restart (db : DB) (g : Nat → String) (now : Nat) : DB × Bool :=
  generate { db with solves := [], links := [] } g now

/-- The stats handler body: SELECT COUNT(*) FROM users and FROM solves. -/
def stats (db : DB) : Nat × Nat :=
  (db.users.length, db.solves.length)

/-- Python str.isdigit for ASCII data: nonempty and every character a digit. -/
def pyIsDigit (s : String) : Bool :=
  s.length != 0 && s.toList.all Char.isDigit

/-- Decimal value of a digit string. -/
def digitsVal (cs : List Char) : Nat :=
  cs.foldl (fun n c => n * 10 + (c.toNat - 48)) 0

/-- int(identifier) for a string that passed isdigit. -/
def digitsToInt (s : String) : Int :=
  Int.ofNat (digitsVal s.toList)

/-- identifier.lstrip of the at sign: drop every leading at sign. -/
def stripAt (s : String) : String :=
  (s.toList.dropWhile (fun c => c == '@')).asString

/-- The row-resolution step of the user_info handler: an all-digit identifier
is looked up as WHERE telegram_id=int(identifier); anything else has its
leading at signs stripped and is looked up as WHERE username=? , an exact
(binary-collation, hence case-sensitive) TEXT comparison. -/
def userLookup (db : DB) (identifier : String) : Option UserRow :=
  if pyIsDigit identifier then findUserByTid db (digitsToInt identifier)
  else db.users.find? (fun u => u.username == stripAt identifier)

/-- SELECT label FROM links WHERE token=? with fallback to the raw token, as
used when the handlers print a solve line. -/
def labelOrToken (db : DB) (tok : String) : String :=
  match findLinkByToken db tok with
  | some l => l.label
  | none => tok

/-- Insert x into a list kept sorted by le (ORDER BY of the reporting
queries). -/
def insertSortedBy {α : Type} (le : α → α → Bool) (x : α) : List α → List α
  | [] => [x]
  | y :: ys => if le x y then x :: y :: ys else y :: insertSortedBy le x ys

/-- Sort a result set by le (insertion sort, enough for the bounded result
sets of the reporting queries). -/
def sortResultBy {α : Type} (le : α → α → Bool) : List α → List α
  | [] => []
  | x :: xs => insertSortedBy le x (sortResultBy le xs)

/-- SELECT token, solved_at FROM solves WHERE user_id=? ORDER BY solved_at. -/
def userSolvesSorted (db : DB) (uid : Nat) : List (String × Nat) :=
  sortResultBy (fun a b => a.2 ≤ b.2)
    ((db.solves.filter (fun s => s.user_id == uid)).map (fun s => (s.token, s.solved_at)))

/-- The classified result of the user_info handler. -/
inductive UserInfoResult where
  /-- reply: Usage: /user telegram_id_or_username. -/
  | usage
  /-- reply: User not found in DB. -/
  | notFound
  /-- reply: the user header plus one (label, token, solved_at) line per solve. -/
  | found (u : UserRow) (history : List (String × String × Nat))
deriving Repr, DecidableEq

/-- The user_info handler body: resolve the identifier, then list that user's
solves in solved_at order, each with its link label (or the raw token when the
link row is gone). -/
def user_info (db : DB) (args : List String) : UserInfoResult :=
  match args with
  | [] => .usage
  | identifier :: _ =>
      match userLookup db identifier with
      | none => .notFound
      | some u =>
          .found u ((userSolvesSorted db u.id).map (fun p => (labelOrToken db p.1, p.1, p.2)))

/-- The latest handler body: solves JOIN users, newest first, LIMIT 10; each
row carries (solved_at, telegram_id, username, label, token). -/
def latest (db : DB) : List (Nat × Int × String × String × String) :=
  ((sortResultBy (fun a b => b.1 ≤ a.1)
    (db.solves.filterMap (fun s =>
      (db.users.find? (fun u => u.id == s.user_id)).map
        (fun u => (s.solved_at, u.telegram_id, u.username, labelOrToken db s.token, s.token))))).take 10)

/-- Whether two adjacent characters are both underscores somewhere in the
run (Python int() rejects doubled underscores). -/
def noDoubleUnderscore : List Char → Bool
  | [] => true
  | [_] => true
  | a :: b :: rest => !(a == '_' && b == '_') && noDoubleUnderscore (b :: rest)

/-- Digit run acceptable to Python int(): nonempty, digits and underscores
only, no leading, trailing or doubled underscore. -/
def pyDigitRun (cs : List Char) : Bool :=
  !cs.isEmpty && cs.all (fun c => c.isDigit || c == '_')
    && cs.head? != some '_' && cs.getLast? != some '_'
    && noDoubleUnderscore cs

/-- int(s) for the OWNER_ID string: strip whitespace, optional sign, then a
digit run; anything else raises ValueError, modelled as none. -/
def pyInt? (s : String) : Option Int :=
  let t := ((s.toList.dropWhile Char.isWhitespace).reverse.dropWhile Char.isWhitespace).reverse
  let neg : Bool := t.head? == some '-'
  let core := if neg || t.head? == some '+' then t.drop 1 else t
  if pyDigitRun core then
    some (if neg then -(digitsVal (core.filter (fun c => c != '_')) : Int)
          else (digitsVal (core.filter (fun c => c != '_')) : Int))
  else none

/-- The OWNER_ID resolution of the owner_only decorator: a missing or empty
(falsy) environment value gives None, and so does a ValueError from int(). -/
def ownerIdOf (env : Option String) : Option Int :=
  match env with
  | none => none
  | some s => if s = "" then none else pyInt? s

/-- Whether the owner_only guard admits the sender: there must be an effective
user, OWNER_ID must parse, and the sender id must equal it. -/
def isAuthorized (env : Option String) (sender : Option Int) : Bool :=
  match ownerIdOf env, sender with
  | some oid, some uid => uid == oid
  | _, _ => false

/-- The result of a decorated command: either the Unauthorized reply with the
body never run, or the body's reply value. -/
inductive Gated (α : Type) where
  /-- reply: Unauthorized. -/
  | unauthorized
  /-- the wrapped handler ran and produced this value. -/
  | executed (a : α)
deriving Repr, DecidableEq

/-- The owner_only decorator: if there is no effective user, or OWNER_ID is
unset or unparsable, or the sender is not the owner, reply Unauthorized and
return without running the body. -/
def owner_only {α : Type} (env : Option String) (sender : Option Int)
    (body : DB → DB × α) (db : DB) : DB × Gated α :=
  match ownerIdOf env, sender with
  | some oid, some uid =>
      if uid = oid then
        let r := body db
        (r.1, .executed r.2)
      else (db, .unauthorized)
  | _, _ => (db, .unauthorized)

/-- The decorated generate command. -/
def generateCmd (env : Option String) (sender : Option Int) (g : Nat → String) (now : Nat)
    (db : DB) : DB × Gated Bool :=
  owner_only env sender (fun d => generate d g now) db

/-- The decorated restart command; its body calls the decorated generate, which
re-checks the owner. -/
def restartCmd (env : Option String) (sender : Option Int) (g : Nat → String) (now : Nat)
    (db : DB) : DB × Gated (Gated Bool) :=
  owner_only env sender
    (fun d =>
      let cleared : DB := { d with solves := [], links := [] }
      let r := generateCmd env sender g now cleared
      (r.1, r.2)) db

/-- The decorated stats command (read-only body). -/
def statsCmd (env : Option String) (sender : Option Int) (db : DB) : DB × Gated (Nat × Nat) :=
  owner_only env sender (fun d => (d, stats d)) db

/-- The decorated user_info command (read-only body). -/
def userInfoCmd (env : Option String) (sender : Option Int) (args : List String) (db : DB) :
    DB × Gated UserInfoResult :=
  owner_only env sender (fun d => (d, user_info d args)) db

/-- The decorated latest command (read-only body). -/
def latestCmd (env : Option String) (sender : Option Int) (db : DB) :
    DB × Gated (List (Nat × Int × String × String × String)) :=
  owner_only env sender (fun d => (d, latest d)) db

/-! ## Basic lemmas about the store operations -/

lemma ensureUser_links (db : DB) (tid : Int) (uname : Option String) (now : Nat) :
    (ensureUser db tid uname now).1.links = db.links := by
  cases h : findUserByTid db tid <;> simp [ensureUser, h]

lemma ensureUser_solves (db : DB) (tid : Int) (uname : Option String) (now : Nat) :
    (ensureUser db tid uname now).1.solves = db.solves := by
  cases h : findUserByTid db tid <;> simp [ensureUser, h]

lemma findLinkByToken_ensureUser (db : DB) (tid : Int) (uname : Option String) (now : Nat)
    (tok : String) :
    findLinkByToken (ensureUser db tid uname now).1 tok = findLinkByToken db tok := by
  unfold findLinkByToken
  rw [ensureUser_links]

lemma ensureUser_found (db : DB) (tid : Int) (uname : Option String) (now : Nat) (u : UserRow)
    (hu : findUserByTid db tid = some u) :
    ensureUser db tid uname now = (db, u.id) := by
  simp [ensureUser, hu]

/-- C1: redeeming a token the sender has already redeemed replies
AlreadyRedeemed and leaves the whole store unchanged: no second solves row is
written. -/
theorem start_already_redeemed_idempotent
    (db : DB) (tid : Int) (uname : Option String) (tok : String) (rest : List String) (now : Nat)
    (u : UserRow)
    (hu : findUserByTid db tid = some u)
    (hl : (findLinkByToken db tok).isSome = true)
    (hs : (findSolve db u.id tok).isSome = true) :
    start db tid uname (tok :: rest) now = (db, StartOutcome.alreadyRedeemed) := by
  obtain ⟨l, hl⟩ := Option.isSome_iff_exists.mp hl
  obtain ⟨s, hs⟩ := Option.isSome_iff_exists.mp hs
  have he := ensureUser_found db tid uname now u hu
  simp [start, he, hl, hs]

/-- Concrete instance of C1: one link, one user, one existing solve; a second
redemption of the same token by the same user is the identity on the store. -/
theorem start_already_redeemed_idempotent_witness :
    start
      { links := [{ token := "t1", label := "Link-1", created_at := 0 }],
        users := [{ id := 1, telegram_id := 5, username := "al", first_seen := 0 }],
        solves := [{ id := 1, user_id := 1, token := "t1", solved_at := 1 }],
        nextUserId := 2, nextSolveId := 2 } 5 (some "al") ["t1"] 2 =
    ({ links := [{ token := "t1", label := "Link-1", created_at := 0 }],
        users := [{ id := 1, telegram_id := 5, username := "al", first_seen := 0 }],
        solves := [{ id := 1, user_id := 1, token := "t1", solved_at := 1 }],
        nextUserId := 2, nextSolveId := 2 }, StartOutcome.alreadyRedeemed) :=
  start_already_redeemed_idempotent _ 5 (some "al") "t1" [] 2
    { id := 1, telegram_id := 5, username := "al", first_seen := 0 }
    (by decide) (by decide) (by decide)

/-- C4: a start payload whose token is not in the links table replies
InvalidToken and writes no solves row, whatever the sender's history. -/
theorem start_invalid_token
    (db : DB) (tid : Int) (uname : Option String) (tok : String) (rest : List String) (now : Nat)
    (hl : findLinkByToken db tok = none) :
    (start db tid uname (tok :: rest) now).2 = StartOutcome.invalidToken ∧
    (start db tid uname (tok :: rest) now).1.solves = db.solves := by
  have hl1 : findLinkByToken (ensureUser db tid uname now).1 tok = none := by
    rw [findLinkByToken_ensureUser]; exact hl
  constructor
  · simp [start, hl1]
  · simp [start, hl1, ensureUser_solves]

/-- Concrete instance of C4: an unknown token on the empty store replies
InvalidToken and leaves the solves table empty. -/
theorem start_invalid_token_witness :
    (start emptyDB 5 none ["zzz"] 0).2 = StartOutcome.invalidToken ∧
    (start emptyDB 5 none ["zzz"] 0).1.solves = emptyDB.solves :=
  start_invalid_token emptyDB 5 none "zzz" [] 0 (by decide)

lemma start_users (db : DB) (tid : Int) (uname : Option String) (args : List String) (now : Nat) :
    (start db tid uname args now).1.users = (ensureUser db tid uname now).1.users := by
  cases args with
  | nil => simp [start]
  | cons tok rest =>
      simp only [start]
      cases hl : findLinkByToken (ensureUser db tid uname now).1 tok with
      | none => simp [hl]
      | some l =>
          cases hs : findSolve (ensureUser db tid uname now).1 (ensureUser db tid uname now).2 tok with
          | some s => simp [hl, hs]
          | none =>
              simp only [hl, hs]
              split <;> rfl

/-- C9: a sender with no users row gets one inserted (first_seen = now) before
the start payload is even looked at, so every invocation of start, a no-payload
greeting and an InvalidToken reply included, appends exactly that users row. -/
theorem start_creates_user_before_validation
    (db : DB) (tid : Int) (uname : Option String) (args : List String) (now : Nat)
    (h : findUserByTid db tid = none) :
    (start db tid uname args now).1.users =
      db.users ++
        [{ id := db.nextUserId, telegram_id := tid, username := uname.getD "",
           first_seen := now }] := by
  rw [start_users]
  simp [ensureUser, h]

/-- Concrete instance of C9: an unseen sender presenting an unknown token gets
a users row written even though the redemption is rejected. -/
theorem start_creates_user_before_validation_witness :
    (start emptyDB 5 (some "al") ["zzz"] 7).1.users =
      emptyDB.users ++
        [{ id := emptyDB.nextUserId, telegram_id := 5, username := "al", first_seen := 7 }] :=
  start_creates_user_before_validation emptyDB 5 (some "al") ["zzz"] 7 (by decide)

/-- C2: on a successful redemption (valid token, no prior (user, token) solve)
the outcome is FirstRedemption exactly when the sender's post-insert solve
count is 1, otherwise SubsequentRedemption of that count, and the post-insert
count is the pre-insert count plus one. -/
theorem start_success_outcome_classification
    (db : DB) (tid : Int) (uname : Option String) (tok : String) (rest : List String) (now : Nat)
    (hl : (findLinkByToken (ensureUser db tid uname now).1 tok).isSome = true)
    (hs : findSolve (ensureUser db tid uname now).1 (ensureUser db tid uname now).2 tok = none) :
    ((start db tid uname (tok :: rest) now).2 = StartOutcome.firstRedemption ↔
      userTotal (start db tid uname (tok :: rest) now).1 (ensureUser db tid uname now).2 = 1) ∧
    (userTotal (start db tid uname (tok :: rest) now).1 (ensureUser db tid uname now).2 ≠ 1 →
      (start db tid uname (tok :: rest) now).2 =
        StartOutcome.subsequentRedemption
          (userTotal (start db tid uname (tok :: rest) now).1 (ensureUser db tid uname now).2)) ∧
    userTotal (start db tid uname (tok :: rest) now).1 (ensureUser db tid uname now).2 =
      userTotal (ensureUser db tid uname now).1 (ensureUser db tid uname now).2 + 1 := by
  obtain ⟨l, hl⟩ := Option.isSome_iff_exists.mp hl
  have hred : start db tid uname (tok :: rest) now =
      (if userTotal
            (solveInsert (ensureUser db tid uname now).1 (ensureUser db tid uname now).2 tok now)
            (ensureUser db tid uname now).2 = 1
       then (solveInsert (ensureUser db tid uname now).1 (ensureUser db tid uname now).2 tok now,
             StartOutcome.firstRedemption)
       else (solveInsert (ensureUser db tid uname now).1 (ensureUser db tid uname now).2 tok now,
             StartOutcome.subsequentRedemption
               (userTotal
                 (solveInsert (ensureUser db tid uname now).1 (ensureUser db tid uname now).2 tok now)
                 (ensureUser db tid uname now).2))) := by
    simp only [start, hl, hs]
  have hcnt : userTotal
      (solveInsert (ensureUser db tid uname now).1 (ensureUser db tid uname now).2 tok now)
      (ensureUser db tid uname now).2 =
      userTotal (ensureUser db tid uname now).1 (ensureUser db tid uname now).2 + 1 := by
    simp [userTotal, solveInsert, List.filter_append]
  by_cases hone : userTotal
      (solveInsert (ensureUser db tid uname now).1 (ensureUser db tid uname now).2 tok now)
      (ensureUser db tid uname now).2 = 1
  · rw [if_pos hone] at hred
    rw [hred]
    exact ⟨⟨fun _ => hone, fun _ => rfl⟩, fun h => absurd hone h, hcnt⟩
  · rw [if_neg hone] at hred
    rw [hred]
    refine ⟨by simp [hone], fun _ => rfl, hcnt⟩

/-- Concrete instance of C2: a fresh user redeeming a valid token gets
FirstRedemption and a post-insert count of one. -/
theorem start_success_outcome_classification_witness :
    ((start { emptyDB with links := [{ token := "t1", label := "Link-1", created_at := 0 }] }
        7 none ["t1"] 1).2 = StartOutcome.firstRedemption ↔
      userTotal
        (start { emptyDB with links := [{ token := "t1", label := "Link-1", created_at := 0 }] }
          7 none ["t1"] 1).1
        (ensureUser { emptyDB with links := [{ token := "t1", label := "Link-1", created_at := 0 }] }
          7 none 1).2 = 1) ∧
    (userTotal
        (start { emptyDB with links := [{ token := "t1", label := "Link-1", created_at := 0 }] }
          7 none ["t1"] 1).1
        (ensureUser { emptyDB with links := [{ token := "t1", label := "Link-1", created_at := 0 }] }
          7 none 1).2 ≠ 1 →
      (start { emptyDB with links := [{ token := "t1", label := "Link-1", created_at := 0 }] }
          7 none ["t1"] 1).2 =
        StartOutcome.subsequentRedemption
          (userTotal
            (start { emptyDB with links := [{ token := "t1", label := "Link-1", created_at := 0 }] }
              7 none ["t1"] 1).1
            (ensureUser { emptyDB with links := [{ token := "t1", label := "Link-1", created_at := 0 }] }
              7 none 1).2)) ∧
    userTotal
      (start { emptyDB with links := [{ token := "t1", label := "Link-1", created_at := 0 }] }
        7 none ["t1"] 1).1
      (ensureUser { emptyDB with links := [{ token := "t1", label := "Link-1", created_at := 0 }] }
        7 none 1).2 =
      userTotal
        (ensureUser { emptyDB with links := [{ token := "t1", label := "Link-1", created_at := 0 }] }
          7 none 1).1
        (ensureUser { emptyDB with links := [{ token := "t1", label := "Link-1", created_at := 0 }] }
          7 none 1).2 + 1 :=
  start_success_outcome_classification
    { emptyDB with links := [{ token := "t1", label := "Link-1", created_at := 0 }] }
    7 none "t1" [] 1 (by decide) (by decide)

/-! ## C3: the at-most-one-solve-per-(user, token) invariant -/

/-- The store invariant of the spec: the solves table holds at most one row
per (user, token) pair. -/
def SolvesUnique (db : DB) : Prop :=
  db.solves.Pairwise (fun a b => ¬(a.user_id = b.user_id ∧ a.token = b.token))

/-- One inbound command that can touch the store: generate, restart, or a
start invocation by an arbitrary sender with an arbitrary payload. -/
inductive Step : DB → DB → Prop where
  /-- the generate handler ran (with token source g at time now). -/
  | gen (db : DB) (g : Nat → String) (now : Nat) : Step db (generate db g now).1
  /-- the restart handler ran. -/
  | reset (db : DB) (g : Nat → String) (now : Nat) : Step db (restart db g now).1
  /-- the start handler ran for sender tid with payload args. -/
  | redeem (db : DB) (tid : Int) (uname : Option String) (args : List String) (now : Nat) :
      Step db (start db tid uname args now).1

/-- The stores reachable from a fresh bot.db by any command sequence. -/
inductive Reachable : DB → Prop where
  /-- the store init_db creates. -/
  | init : Reachable emptyDB
  /-- one more command. -/
  | step {db db1 : DB} : Reachable db → Step db db1 → Reachable db1

lemma insertLinks_solves (g : Nat → String) (now : Nat) (l : List Nat) (db : DB) :
    (insertLinks db g now l).1.solves = db.solves := by
  induction l generalizing db with
  | nil => rfl
  | cons i rest ih =>
      simp only [insertLinks]
      cases h : insertLink db (g i) ("Link-" ++ toString (i + 1)) now with
      | none => rfl
      | some db1 =>
          have hdb1 : db1.solves = db.solves := by
            unfold insertLink at h
            split at h
            · cases h
            · cases h; rfl
          rw [ih db1, hdb1]

lemma generate_solves (db : DB) (g : Nat → String) (now : Nat) :
    (generate db g now).1.solves = db.solves :=
  insertLinks_solves g now (List.range 10) db

lemma restart_solves (db : DB) (g : Nat → String) (now : Nat) :
    (restart db g now).1.solves = [] := by
  unfold restart
  rw [generate_solves]

lemma findSolve_none_not_mem (db : DB) (uid : Nat) (tok : String)
    (h : findSolve db uid tok = none) :
    ∀ s ∈ db.solves, ¬(s.user_id = uid ∧ s.token = tok) := by
  intro s hs hc
  have := List.find?_eq_none.mp h s hs
  simp [hc.1, hc.2] at this

lemma start_preserves_solves_unique (db : DB) (tid : Int) (uname : Option String)
    (args : List String) (now : Nat) (h : SolvesUnique db) :
    SolvesUnique (start db tid uname args now).1 := by
  have hsv : (ensureUser db tid uname now).1.solves = db.solves := ensureUser_solves db tid uname now
  cases args with
  | nil => simpa [start, SolvesUnique, hsv] using h
  | cons tok rest =>
      simp only [start]
      cases hl : findLinkByToken (ensureUser db tid uname now).1 tok with
      | none => simpa [SolvesUnique, hsv] using h
      | some l =>
          cases hsol : findSolve (ensureUser db tid uname now).1 (ensureUser db tid uname now).2 tok with
          | some s => simpa [hl, hsol, SolvesUnique, hsv] using h
          | none =>
              simp only [hl, hsol]
              have hnew : SolvesUnique
                  (solveInsert (ensureUser db tid uname now).1 (ensureUser db tid uname now).2 tok now) := by
                unfold SolvesUnique solveInsert
                rw [List.pairwise_append]
                refine ⟨hsv ▸ h, List.pairwise_singleton _ _, ?_⟩
                intro a ha b hb
                have hmem := findSolve_none_not_mem _ _ _ hsol a ha
                simp only [List.mem_singleton] at hb
                subst hb
                simpa using hmem
              split <;> exact hnew

/-- C3: in every store reachable from a fresh bot.db by generate, restart and
start commands, the solves table has at most one row per (user, token) pair:
the duplicate attempt is turned away before any insert. -/
theorem reachable_solves_unique (db : DB) (h : Reachable db) : SolvesUnique db := by
  induction h with
  | init => simp [SolvesUnique, emptyDB]
  | step _ hs ih =>
      cases hs with
      | gen g now =>
          unfold SolvesUnique
          rw [generate_solves]
          exact ih
      | reset g now =>
          unfold SolvesUnique
          rw [restart_solves]
          exact List.Pairwise.nil
      | redeem tid uname args now =>
          exact start_preserves_solves_unique _ tid uname args now ih

/-- Concrete instance of C3: a three-command history (generate, a redemption,
then a duplicate redemption attempt of the same token) still satisfies the
invariant. -/
theorem reachable_solves_unique_witness :
    SolvesUnique
      (start (start (generate emptyDB (fun i => "t" ++ toString i) 0).1
          5 none ["t3"] 1).1 5 none ["t3"] 2).1 :=
  reachable_solves_unique _
    (Reachable.step
      (Reachable.step
        (Reachable.step Reachable.init (Step.gen _ (fun i => "t" ++ toString i) 0))
        (Step.redeem _ 5 none ["t3"] 1))
      (Step.redeem _ 5 none ["t3"] 2))

/-! ## C5: authorization gating of the privileged commands -/

lemma owner_only_unauthorized {α : Type} (env : Option String) (sender : Option Int)
    (body : DB → DB × α) (db : DB) (h : isAuthorized env sender = false) :
    owner_only env sender body db = (db, Gated.unauthorized) := by
  unfold owner_only
  unfold isAuthorized at h
  cases henv : ownerIdOf env with
  | none => rfl
  | some oid =>
      cases hsend : sender with
      | none => rfl
      | some uid =>
          rw [henv, hsend] at h
          simp only [beq_eq_false_iff_ne, ne_eq] at h
          simp [h]

/-- C5: whenever the sender is not the parsed OWNER_ID owner (in particular
when OWNER_ID is unset, empty or unparsable), every one of the five privileged
commands replies Unauthorized and returns the store untouched, the command
body never running. -/
theorem privileged_unauthorized_no_change
    (env : Option String) (sender : Option Int) (db : DB) (g : Nat → String) (now : Nat)
    (args : List String)
    (h : isAuthorized env sender = false) :
    generateCmd env sender g now db = (db, Gated.unauthorized) ∧
    restartCmd env sender g now db = (db, Gated.unauthorized) ∧
    statsCmd env sender db = (db, Gated.unauthorized) ∧
    userInfoCmd env sender args db = (db, Gated.unauthorized) ∧
    latestCmd env sender db = (db, Gated.unauthorized) :=
  ⟨owner_only_unauthorized env sender _ db h,
   owner_only_unauthorized env sender _ db h,
   owner_only_unauthorized env sender _ db h,
   owner_only_unauthorized env sender _ db h,
   owner_only_unauthorized env sender _ db h⟩

/-- Concrete instance of C5: OWNER_ID is 99 but the sender is 5, so all five
privileged commands are refused on the empty store. -/
theorem privileged_unauthorized_no_change_witness :
    generateCmd (some "99") (some 5) (fun i => "t" ++ toString i) 0 emptyDB =
      (emptyDB, Gated.unauthorized) ∧
    restartCmd (some "99") (some 5) (fun i => "t" ++ toString i) 0 emptyDB =
      (emptyDB, Gated.unauthorized) ∧
    statsCmd (some "99") (some 5) emptyDB = (emptyDB, Gated.unauthorized) ∧
    userInfoCmd (some "99") (some 5) ["7"] emptyDB = (emptyDB, Gated.unauthorized) ∧
    latestCmd (some "99") (some 5) emptyDB = (emptyDB, Gated.unauthorized) :=
  privileged_unauthorized_no_change (some "99") (some 5) emptyDB
    (fun i => "t" ++ toString i) 0 ["7"] (by decide)

/-! ## C6 and C8: restart and the issued batch -/

lemma owner_only_authorized {α : Type} (env : Option String) (sender : Option Int)
    (body : DB → DB × α) (db : DB) (h : isAuthorized env sender = true) :
    owner_only env sender body db = ((body db).1, Gated.executed (body db).2) := by
  unfold owner_only
  unfold isAuthorized at h
  cases henv : ownerIdOf env with
  | none => rw [henv] at h; cases sender <;> simp_all
  | some oid =>
      cases hsend : sender with
      | none => rw [henv, hsend] at h; simp at h
      | some uid =>
          rw [henv, hsend] at h
          simp only [beq_iff_eq] at h
          simp [h]

lemma insertLinks_fresh (g : Nat → String) (now : Nat) (l : List Nat) (db : DB)
    (hfree : ∀ i ∈ l, ∀ lk ∈ db.links, lk.token ≠ g i)
    (hnd : l.Pairwise (fun i j => g i ≠ g j)) :
    insertLinks db g now l =
      ({ db with
          links := db.links ++
            l.map (fun i => { token := g i, label := "Link-" ++ toString (i + 1), created_at := now }) },
       true) := by
  induction l generalizing db with
  | nil => simp [insertLinks]
  | cons i rest ih =>
      have hnotin : db.links.any (fun lk => lk.token == g i) = false := by
        rw [List.any_eq_false]
        intro lk hlk
        simpa using hfree i (by simp) lk hlk
      have hpc := List.pairwise_cons.mp hnd
      have hstep := ih
        { db with links := db.links ++ [{ token := g i, label := "Link-" ++ toString (i + 1), created_at := now }] }
        (by
          intro j hj lk hlk
          rcases List.mem_append.mp hlk with hmem | hmem
          · exact hfree j (List.mem_cons_of_mem i hj) lk hmem
          · simp only [List.mem_singleton] at hmem
            subst hmem
            exact hpc.1 j hj)
        hpc.2
      simp only [insertLinks, insertLink, hnotin, Bool.false_eq_true, if_false, hstep]
      simp [List.append_assoc]

lemma generate_fresh (db : DB) (g : Nat → String) (now : Nat)
    (hfree : ∀ i, i < 10 → ∀ lk ∈ db.links, lk.token ≠ g i)
    (hfresh : ∀ i, i < 10 → ∀ j, j < 10 → i ≠ j → g i ≠ g j) :
    generate db g now =
      ({ db with
          links := db.links ++
            (List.range 10).map
              (fun i => { token := g i, label := "Link-" ++ toString (i + 1), created_at := now }) },
       true) := by
  apply insertLinks_fresh
  · intro i hi
    exact hfree i (List.mem_range.mp hi)
  · exact (List.pairwise_lt_range 10).imp_of_mem
      (fun ha hb hlt => hfresh _ (List.mem_range.mp ha) _ (List.mem_range.mp hb) (Nat.ne_of_lt hlt))

/-- C6: an operator-invoked restart empties the solves table, replaces the
links table by exactly the 10 freshly generated labelled tokens, and leaves
the users table untouched; the re-invoked generate runs to completion. -/
theorem restart_resets_and_reissues
    (env : Option String) (sender : Option Int) (g : Nat → String) (now : Nat) (db : DB)
    (hauth : isAuthorized env sender = true)
    (hfresh : ∀ i, i < 10 → ∀ j, j < 10 → i ≠ j → g i ≠ g j) :
    (restartCmd env sender g now db).1.links =
      (List.range 10).map
        (fun i => { token := g i, label := "Link-" ++ toString (i + 1), created_at := now }) ∧
    (restartCmd env sender g now db).1.links.length = 10 ∧
    (restartCmd env sender g now db).1.solves = [] ∧
    (restartCmd env sender g now db).1.users = db.users ∧
    (restartCmd env sender g now db).2 = Gated.executed (Gated.executed true) := by
  have hgen := generate_fresh { db with solves := [], links := [] } g now
    (by intro i hi lk hlk; simp at hlk) hfresh
  have hcmd : restartCmd env sender g now db =
      ({ db with
          solves := [],
          links := (List.range 10).map
            (fun i => { token := g i, label := "Link-" ++ toString (i + 1), created_at := now }) },
       Gated.executed (Gated.executed true)) := by
    unfold restartCmd
    rw [owner_only_authorized _ _ _ _ hauth]
    simp only [generateCmd]
    rw [owner_only_authorized _ _ _ _ hauth]
    simp [hgen]
  rw [hcmd]
  refine ⟨rfl, by simp, rfl, rfl, rfl⟩

/-- Concrete instance of C6: the operator (id 5, OWNER_ID "5") restarts a
store holding one user; the user survives, the solves are gone and exactly the
10 fresh labelled tokens remain. -/
theorem restart_resets_and_reissues_witness :
    (restartCmd (some "5") (some 5) (fun i => "t" ++ toString i) 3
        { emptyDB with users := [{ id := 1, telegram_id := 5, username := "al", first_seen := 0 }] }).1.links =
      (List.range 10).map
        (fun i => { token := "t" ++ toString i, label := "Link-" ++ toString (i + 1), created_at := 3 }) ∧
    (restartCmd (some "5") (some 5) (fun i => "t" ++ toString i) 3
        { emptyDB with users := [{ id := 1, telegram_id := 5, username := "al", first_seen := 0 }] }).1.links.length = 10 ∧
    (restartCmd (some "5") (some 5) (fun i => "t" ++ toString i) 3
        { emptyDB with users := [{ id := 1, telegram_id := 5, username := "al", first_seen := 0 }] }).1.solves = [] ∧
    (restartCmd (some "5") (some 5) (fun i => "t" ++ toString i) 3
        { emptyDB with users := [{ id := 1, telegram_id := 5, username := "al", first_seen := 0 }] }).1.users =
      { emptyDB with users := [{ id := 1, telegram_id := 5, username := "al", first_seen := 0 }] }.users ∧
    (restartCmd (some "5") (some 5) (fun i => "t" ++ toString i) 3
        { emptyDB with users := [{ id := 1, telegram_id := 5, username := "al", first_seen := 0 }] }).2 =
      Gated.executed (Gated.executed true) :=
  restart_resets_and_reissues (some "5") (some 5) (fun i => "t" ++ toString i) 3
    { emptyDB with users := [{ id := 1, telegram_id := 5, username := "al", first_seen := 0 }] }
    (by decide) (by decide)

/-- C8: when the token source repeats no value within the batch (and clashes
with nothing already stored), one generate run completes, appends exactly the
rows (g i, Link-(i+1)) for i = 0..9, and the ten token values are pairwise
distinct. -/
theorem generate_batch_distinct_labelled
    (db : DB) (g : Nat → String) (now : Nat)
    (hfree : ∀ i, i < 10 → ∀ lk ∈ db.links, lk.token ≠ g i)
    (hfresh : ∀ i, i < 10 → ∀ j, j < 10 → i ≠ j → g i ≠ g j) :
    (generate db g now).2 = true ∧
    (generate db g now).1.links =
      db.links ++
        (List.range 10).map
          (fun i => { token := g i, label := "Link-" ++ toString (i + 1), created_at := now }) ∧
    ((List.range 10).map g).Pairwise (fun a b => a ≠ b) := by
  have hgen := generate_fresh db g now hfree hfresh
  refine ⟨by rw [hgen], by rw [hgen], ?_⟩
  rw [List.pairwise_map]
  exact (List.pairwise_lt_range 10).imp_of_mem
    (fun ha hb hlt => hfresh _ (List.mem_range.mp ha) _ (List.mem_range.mp hb) (Nat.ne_of_lt hlt))

/-- Concrete instance of C8: on the empty store with a non-repeating source
the batch is the ten distinct labelled tokens. -/
theorem generate_batch_distinct_labelled_witness :
    (generate emptyDB (fun i => "t" ++ toString i) 0).2 = true ∧
    (generate emptyDB (fun i => "t" ++ toString i) 0).1.links =
      emptyDB.links ++
        (List.range 10).map
          (fun i => { token := "t" ++ toString i, label := "Link-" ++ toString (i + 1), created_at := 0 }) ∧
    ((List.range 10).map (fun i => "t" ++ toString i)).Pairwise (fun a b => a ≠ b) :=
  generate_batch_distinct_labelled emptyDB (fun i => "t" ++ toString i) 0
    (by intro i hi lk hlk; simp [emptyDB] at hlk) (by decide)

/-! ## C7 and C10: identifier resolution in user_info -/

/-- Lowercasing used to state the case-insensitive matching the spec
describes. -/
def lowerStr (s : String) : String :=
  (s.toList.map Char.toLower).asString

/-- Modelled from the spec sentence for user_detail (the code is userLookup):
a display-name lookup strips the leading at sign and matches
case-insensitively.  Written from the words of the spec, for comparison with
the code's resolution. -/
def userLookupSpec (db : DB) (identifier : String) : Option UserRow :=
  if pyIsDigit identifier then findUserByTid db (digitsToInt identifier)
  else db.users.find? (fun u => lowerStr u.username == lowerStr (stripAt identifier))

/-- C7 counterexample: the store holds a user whose username is Alice; the
spec's case-insensitive lookup of alice finds them, but the handler's exact
comparison does not, so user_info replies User not found. -/
theorem user_info_case_sensitive_cex :
    userLookupSpec { emptyDB with users := [{ id := 1, telegram_id := 7, username := "Alice", first_seen := 0 }] }
      "alice" = some { id := 1, telegram_id := 7, username := "Alice", first_seen := 0 } ∧
    userLookup { emptyDB with users := [{ id := 1, telegram_id := 7, username := "Alice", first_seen := 0 }] }
      "alice" = none ∧
    user_info { emptyDB with users := [{ id := 1, telegram_id := 7, username := "Alice", first_seen := 0 }] }
      ["alice"] = UserInfoResult.notFound := by
  refine ⟨by decide, by decide, by decide⟩

/-- C7 as amended: an all-digit identifier resolves as a telegram id and any
other identifier as an exact, case-sensitive username comparison after
stripping leading at signs; an unmatched identifier gives the User-not-found
reply, never an error. -/
theorem user_info_resolution (db : DB) (identifier : String) (rest : List String) :
    user_info db (identifier :: rest) =
      (match userLookup db identifier with
       | none => UserInfoResult.notFound
       | some u =>
           UserInfoResult.found u
             ((userSolvesSorted db u.id).map (fun p => (labelOrToken db p.1, p.1, p.2)))) ∧
    (userLookup db identifier = none ↔
      (if pyIsDigit identifier then ∀ u ∈ db.users, u.telegram_id ≠ digitsToInt identifier
       else ∀ u ∈ db.users, u.username ≠ stripAt identifier)) := by
  constructor
  · rfl
  · by_cases hd : pyIsDigit identifier = true
    · simp [userLookup, hd, findUserByTid, List.find?_eq_none]
    · simp only [Bool.not_eq_true] at hd
      simp [userLookup, hd, List.find?_eq_none]

/-- C10 counterexample: a user whose username is the digit string 42 and
whose telegram id happens to be 42 IS found by a 42 lookup (through the
telegram-id branch), so the digit-named lookup does not always reply
User not found. -/
theorem digit_username_lookup_cex :
    user_info { emptyDB with users := [{ id := 1, telegram_id := 42, username := "42", first_seen := 0 }] }
      ["42"] =
      UserInfoResult.found { id := 1, telegram_id := 42, username := "42", first_seen := 0 } [] := by
  decide

/-- C10 as amended: an all-digit identifier is resolved only against telegram
ids, never against usernames; when no stored telegram id equals its value the
reply is User not found, even if some user's username is exactly that digit
string. -/
theorem digit_identifier_never_matches_username
    (db : DB) (identifier : String) (rest : List String)
    (hd : pyIsDigit identifier = true)
    (h : ∀ u ∈ db.users, u.telegram_id ≠ digitsToInt identifier) :
    user_info db (identifier :: rest) = UserInfoResult.notFound := by
  have hlook : userLookup db identifier = none := by
    unfold userLookup
    rw [if_pos hd]
    unfold findUserByTid
    rw [List.find?_eq_none]
    intro u hu
    simpa using h u hu
  simp [user_info, hlook]

/-- Concrete instance of amended C10: a user whose username is 99 but whose
telegram id is 7 cannot be found by the identifier 99. -/
theorem digit_identifier_never_matches_username_witness :
    user_info { emptyDB with users := [{ id := 1, telegram_id := 7, username := "99", first_seen := 0 }] }
      ["99"] = UserInfoResult.notFound :=
  digit_identifier_never_matches_username
    { emptyDB with users := [{ id := 1, telegram_id := 7, username := "99", first_seen := 0 }] }
    "99" [] (by decide) (by decide)
